import Mathlib

/-!
Verification of `src/scraper/src/index.py` (the DocSearch scraper entry
point).  The only function with logic in that file is `run_config`; we embed it
shallowly:

* the environment probed by `os.getenv` becomes a structure of
  `Option String` fields, with Python truthiness (`None` and `""` are
  falsy);
* the header dictionary built in lines 51-92 becomes an association list
  with Python `dict.update` semantics (overwrite in place, append fresh
  keys in insertion order);
* the imperative body of `run_config` (lines 33-132) becomes a pure
  function returning the ordered trace of its observable actions, the
  final value of the `DocumentationSpider.NB_INDEXED` class counter, and
  the process exit code if `exit()` was reached.

The crawl itself (`process.start()`) is an external collaborator: its
contribution is the number of records the spider indexed during the run,
passed in as the parameter `nbCrawled` (the spider increments
`NB_INDEXED` once per indexed record).  Token exchanges performed by the
IAP and Keycloak branches are external as well; their resulting tokens
are the parameters `iapToken` and `kcToken`.
-/

/-- One extra record supplied by configuration (`config.extra_records`).
`run_config` never inspects the content of a record, only the list. -/
abbrev Record := String

/-- The fields of the loaded configuration that `run_config` reads.
(The remaining fields - start urls, selectors, user agent, anchors flag -
are passed through to the crawler settings and never branch in
`run_config`.) -/
structure Config where
  index_name : String
  index_name_tmp : String
  extra_records : List Record
deriving Repr, DecidableEq

/-- The environment variables probed by lines 56-81 of `index.py`.
`none` models an unset variable. -/
structure Env where
  CF_ACCESS_CLIENT_ID : Option String
  CF_ACCESS_CLIENT_SECRET : Option String
  IAP_AUTH_CLIENT_ID : Option String
  IAP_AUTH_SERVICE_ACCOUNT_JSON : Option String
  KC_URL : Option String
  KC_REALM : Option String
  KC_CLIENT_ID : Option String
  KC_CLIENT_SECRET : Option String
deriving Repr, DecidableEq

/-- Python truthiness of an `os.getenv` result: `None` is falsy and so is
the empty string. -/
def truthy : Option String → Bool
  | none => false
  | some s => !(s == "")

/-- Lines 51-54: the default request headers the dictionary starts from. -/
def defaultHeaders : List (String × String) :=
  [("Accept", "text/html,application/xhtml+xml,application/xml;q=0.9,*/*;q=0.8"),
   ("Accept-Language", "en")]

/-- Python `d[k] = v` on an insertion-ordered dictionary represented as an
association list: overwrite in place when the key exists, append
otherwise. -/
def dictSet (hs : List (String × String)) (k v : String) :
    List (String × String) :=
  if hs.any (fun p => p.1 == k) then
    hs.map (fun p => if p.1 == k then (k, v) else p)
  else hs ++ [(k, v)]

/-- Python `d.update(kvs)`: assign each pair in order. -/
def dictUpdate (hs : List (String × String)) (kvs : List (String × String)) :
    List (String × String) :=
  kvs.foldl (fun acc kv => dictSet acc kv.1 kv.2) hs

/-- Dictionary lookup: the value stored at `k`, if any. -/
def dictGet (hs : List (String × String)) (k : String) : Option String :=
  (hs.find? (fun p => p.1 == k)).map (fun p => p.2)

/-- Line 57-58: the Cloudflare branch guard -
`os.getenv("CF_ACCESS_CLIENT_ID") and os.getenv("CF_ACCESS_CLIENT_SECRET")`. -/
def cfConfigured (env : Env) : Bool :=
  truthy env.CF_ACCESS_CLIENT_ID && truthy env.CF_ACCESS_CLIENT_SECRET

/-- Line 67-68: the Identity-Aware-Proxy branch guard. -/
def iapConfigured (env : Env) : Bool :=
  truthy env.IAP_AUTH_CLIENT_ID && truthy env.IAP_AUTH_SERVICE_ACCOUNT_JSON

/-- Lines 78-81: the Keycloak branch guard - all four variables must be
truthy. -/
def kcConfigured (env : Env) : Bool :=
  truthy env.KC_URL && truthy env.KC_REALM &&
  truthy env.KC_CLIENT_ID && truthy env.KC_CLIENT_SECRET

/-- Lines 51-92 of `index.py`: build `DEFAULT_REQUEST_HEADERS`.  The three
schemes form a single `if`/`elif`/`elif` chain, so at most one fires.
`iapToken` is the `Authorization` header value produced by the IAP
exchange and `kcToken` the access token of the Keycloak
client-credentials exchange (both external). -/
def buildHeaders (env : Env) (iapToken kcToken : String) :
    List (String × String) :=
  let headers := defaultHeaders
  if cfConfigured env then
    dictUpdate headers
      [("CF-Access-Client-Id", env.CF_ACCESS_CLIENT_ID.getD ""),
       ("CF-Access-Client-Secret", env.CF_ACCESS_CLIENT_SECRET.getD "")]
  else if iapConfigured env then
    dictUpdate headers [("Authorization", iapToken)]
  else if kcConfigured env then
    dictUpdate headers [("Authorization", "bearer " ++ kcToken)]
  else
    headers

/-- The observable actions of `run_config`, in program order. -/
inductive Event where
  /-- Line 36: `DocumentationSpider.NB_INDEXED = 0`. -/
  | resetNbIndexed
  /-- Lines 40-44: `TypesenseHelper(index_name, index_name_tmp, ...)`. -/
  | createTypesenseHelper (production tmp : String)
  /-- Line 45 would emit this; the call is commented out in the source. -/
  | createTmpCollection (tmp : String)
  /-- Line 114: `process.start()` (the crawl runs to completion inside). -/
  | processStart
  /-- Line 115: `process.stop()`. -/
  | processStop
  /-- Line 118: `BrowserHandler.destroy(config.driver)`. -/
  | browserDestroy
  /-- Line 121: `typesense_helper.add_records(records, label, False)`. -/
  | addRecords (label : String) (count : Nat)
  /-- Line 126: `typesense_helper.commit_tmp_collection()`. -/
  | commitTmpCollection
  /-- `print(s)`. -/
  | printLine (s : String)
  /-- Line 128: `config.update_nb_hits_value(n)`. -/
  | updateNbHitsValue (n : Nat)
  /-- Line 131: `exit(code)`. -/
  | exitProcess (code : Nat)
deriving Repr, DecidableEq

/-- The outcome of one `run_config` call. -/
structure RunResult where
  /-- `DEFAULT_REQUEST_HEADERS` as configured into the crawler process. -/
  headers : List (String × String)
  /-- The ordered trace of observable actions. -/
  trace : List Event
  /-- `some c` when the run terminated through `exit(c)`, `none` when it
  returned normally. -/
  exitCode : Option Nat
  /-- The value of `DocumentationSpider.NB_INDEXED` once the crawl is
  over (it is not touched again afterwards). -/
  nbIndexedAfter : Nat
deriving Repr, DecidableEq

/-- Line 30: `EXIT_CODE_NO_RECORD = 3`. -/
def EXIT_CODE_NO_RECORD : Nat := 3

/-- Lines 33-132 of `index.py`: the body of `run_config`.
`nbIndexedBefore` is whatever value the class-level counter
`DocumentationSpider.NB_INDEXED` holds when the call begins (line 36
overwrites it with 0 before anything else happens); `nbCrawled` is the
number of records the spider indexes while `process.start()` runs, each
incrementing the counter. -/
def run_config (env : Env) (iapToken kcToken : String)
    (nbIndexedBefore : Nat) (cfg : Config) (nbCrawled : Nat) : RunResult :=
  -- line 36: the counter is reset; nbIndexedBefore is discarded here
  let nbAfterReset : Nat := 0
  -- lines 51-92
  let headers := buildHeaders env iapToken kcToken
  -- lines 114-115: the crawl increments the counter once per record
  let nbIndexed := nbAfterReset + nbCrawled
  -- everything before the commit gate of line 125, in program order;
  -- line 45 (create_tmp_collection) is commented out in the source and
  -- therefore contributes nothing
  let preGate : List Event :=
    [Event.resetNbIndexed,
     Event.createTypesenseHelper cfg.index_name cfg.index_name_tmp,
     Event.processStart, Event.processStop, Event.browserDestroy]
    ++ (if cfg.extra_records.length > 0 then
          [Event.addRecords "Extra records" cfg.extra_records.length]
        else [])
    ++ [Event.printLine ""]
  if nbIndexed > 0 then
    { headers := headers
      trace := preGate ++
        [Event.commitTmpCollection,
         Event.printLine ("Nb hits: " ++ toString nbIndexed),
         Event.updateNbHitsValue nbIndexed,
         Event.printLine ""]
      exitCode := none
      nbIndexedAfter := nbIndexed }
  else
    { headers := headers
      trace := preGate ++
        [Event.printLine ("Crawling issue: nbHits 0 for " ++ cfg.index_name),
         Event.exitProcess EXIT_CODE_NO_RECORD]
      exitCode := some EXIT_CODE_NO_RECORD
      nbIndexedAfter := nbIndexed }

/-- Recognizes `process.start()`. -/
def isStart : Event → Bool
  | Event.processStart => true
  | _ => false

/-- Recognizes `process.stop()`. -/
def isStop : Event → Bool
  | Event.processStop => true
  | _ => false

/-- Recognizes `commit_tmp_collection()`. -/
def isCommit : Event → Bool
  | Event.commitTmpCollection => true
  | _ => false

/-- Recognizes any `add_records` call. -/
def isAddRecords : Event → Bool
  | Event.addRecords _ _ => true
  | _ => false

/-- Recognizes `create_tmp_collection()`. -/
def isCreateTmp : Event → Bool
  | Event.createTmpCollection _ => true
  | _ => false

/-- Recognizes the `TypesenseHelper` construction. -/
def isCreateHelper : Event → Bool
  | Event.createTypesenseHelper _ _ => true
  | _ => false

/-- Recognizes `update_nb_hits_value`. -/
def isUpdateNbHits : Event → Bool
  | Event.updateNbHitsValue _ => true
  | _ => false

/-- Scanning a trace left to right, an event satisfying `p` is reached
strictly before any event satisfying `q` (vacuously true when no event
satisfies `q`). -/
def firstReached (p q : Event → Bool) : List Event → Bool
  | [] => true
  | e :: tl => if q e then false else if p e then true else firstReached p q tl

/-- A configuration with no extra records. -/
def cfgPlain : Config :=
  { index_name := "docs", index_name_tmp := "docs_tmp", extra_records := [] }

/-- A configuration with one extra record. -/
def cfgExtra : Config :=
  { index_name := "docs", index_name_tmp := "docs_tmp",
    extra_records := ["r1"] }

/-- No authentication variable set. -/
def envNone : Env :=
  { CF_ACCESS_CLIENT_ID := none, CF_ACCESS_CLIENT_SECRET := none,
    IAP_AUTH_CLIENT_ID := none, IAP_AUTH_SERVICE_ACCOUNT_JSON := none,
    KC_URL := none, KC_REALM := none,
    KC_CLIENT_ID := none, KC_CLIENT_SECRET := none }

/-- Both Cloudflare variables set. -/
def envCFFull : Env :=
  { CF_ACCESS_CLIENT_ID := some "id", CF_ACCESS_CLIENT_SECRET := some "sec",
    IAP_AUTH_CLIENT_ID := none, IAP_AUTH_SERVICE_ACCOUNT_JSON := none,
    KC_URL := none, KC_REALM := none,
    KC_CLIENT_ID := none, KC_CLIENT_SECRET := none }

/-- Both IAP variables set. -/
def envIAPFull : Env :=
  { CF_ACCESS_CLIENT_ID := none, CF_ACCESS_CLIENT_SECRET := none,
    IAP_AUTH_CLIENT_ID := some "cid", IAP_AUTH_SERVICE_ACCOUNT_JSON := some "j",
    KC_URL := none, KC_REALM := none,
    KC_CLIENT_ID := none, KC_CLIENT_SECRET := none }

/-- Cloudflare only half configured (the secret is missing) while all four
Keycloak variables are set. -/
def envHalfCF : Env :=
  { CF_ACCESS_CLIENT_ID := some "id", CF_ACCESS_CLIENT_SECRET := none,
    IAP_AUTH_CLIENT_ID := none, IAP_AUTH_SERVICE_ACCOUNT_JSON := none,
    KC_URL := some "u", KC_REALM := some "r",
    KC_CLIENT_ID := some "c", KC_CLIENT_SECRET := some "s" }

/-- C1: the staging-to-production commit (`commit_tmp_collection`) happens
iff the run indexed at least one record, happens exactly once in that
case, and only after `process.start()` and `process.stop()` have
returned; a zero-record run never promotes the staging collection. -/
theorem commit_gating (env : Env) (iapToken kcToken : String) (nb0 : Nat)
    (cfg : Config) (nbCrawled : Nat) :
    List.countP isCommit (run_config env iapToken kcToken nb0 cfg nbCrawled).trace
      = (if 0 < nbCrawled then 1 else 0)
    ∧ firstReached isStart isCommit
        (run_config env iapToken kcToken nb0 cfg nbCrawled).trace = true
    ∧ firstReached isStop isCommit
        (run_config env iapToken kcToken nb0 cfg nbCrawled).trace = true := by
  rcases cfg with ⟨iname, itmp, extras⟩
  cases extras <;> cases nbCrawled <;>
    simp [run_config, firstReached, isCommit, isStart, isStop,
      List.countP_cons, List.countP_append]

/-- C2: a zero-record run terminates through `exit` with the distinct
code `EXIT_CODE_NO_RECORD = 3` (greater than 1, hence neither success
nor the generic error code), and a run with at least one indexed record
never exits with it. -/
theorem exit_code_no_record (env : Env) (iapToken kcToken : String)
    (nb0 : Nat) (cfg : Config) (nbCrawled : Nat) :
    (run_config env iapToken kcToken nb0 cfg nbCrawled).exitCode
      = (if 0 < nbCrawled then none else some EXIT_CODE_NO_RECORD)
    ∧ EXIT_CODE_NO_RECORD = 3 ∧ 1 < EXIT_CODE_NO_RECORD := by
  rcases cfg with ⟨iname, itmp, extras⟩
  cases nbCrawled <;>
    simp [run_config, EXIT_CODE_NO_RECORD]

/-- C3 counterexample: on a concrete one-record run, `run_config` never
creates the temporary (staging) collection - the
`create_tmp_collection()` call at line 45 is commented out - so no fresh
staging collection is created at the start of the run. -/
theorem no_tmp_collection_created :
    List.countP isCreateTmp
      (run_config envNone "iap" "kc" 0 cfgPlain 1).trace = 0 := by
  simp [run_config, cfgPlain, envNone, isCreateTmp,
    List.countP_cons, List.countP_append]

/-- C3 (amended): at the start of every run, before the crawl and before
any records are added, `run_config` constructs the staged-indexing
helper carrying the production and temporary collection identities, but
it never creates the temporary collection itself: the
`create_tmp_collection()` call is commented out. -/
theorem helper_constructed_no_tmp_creation (env : Env)
    (iapToken kcToken : String) (nb0 : Nat) (cfg : Config) (nbCrawled : Nat) :
    List.countP isCreateTmp
      (run_config env iapToken kcToken nb0 cfg nbCrawled).trace = 0
    ∧ Event.createTypesenseHelper cfg.index_name cfg.index_name_tmp
        ∈ (run_config env iapToken kcToken nb0 cfg nbCrawled).trace
    ∧ firstReached isCreateHelper isStart
        (run_config env iapToken kcToken nb0 cfg nbCrawled).trace = true
    ∧ firstReached isCreateHelper isAddRecords
        (run_config env iapToken kcToken nb0 cfg nbCrawled).trace = true := by
  rcases cfg with ⟨iname, itmp, extras⟩
  cases extras <;> cases nbCrawled <;>
    simp [run_config, firstReached, isCreateTmp, isCreateHelper, isStart,
      isAddRecords, List.countP_cons, List.countP_append]

/-- C8: the class-level counter `DocumentationSpider.NB_INDEXED` is
overwritten with 0 at the start of every `run_config` call (its first
observable action), so the whole outcome of the run is independent of
the value the counter held beforehand. -/
theorem nb_indexed_reset (env : Env) (iapToken kcToken : String)
    (n1 n2 : Nat) (cfg : Config) (nbCrawled : Nat) :
    run_config env iapToken kcToken n1 cfg nbCrawled
      = run_config env iapToken kcToken n2 cfg nbCrawled
    ∧ (run_config env iapToken kcToken n1 cfg nbCrawled).trace.head?
        = some Event.resetNbIndexed
    ∧ (run_config env iapToken kcToken n1 cfg nbCrawled).nbIndexedAfter
        = nbCrawled := by
  refine ⟨rfl, ?_, ?_⟩ <;>
    · rcases cfg with ⟨iname, itmp, extras⟩
      cases nbCrawled <;> simp [run_config]

/-- C4: when the configuration carries extra records they are added in
exactly one `add_records` call labelled "Extra records", after
`process.stop()` has returned and before the commit gate is evaluated,
regardless of how many records the crawl indexed; the add leaves
`NB_INDEXED` untouched, so extra records alone never make a
zero-crawl-record run commit. -/
theorem extra_records_added (env : Env) (iapToken kcToken : String)
    (nb0 : Nat) (cfg : Config) (nbCrawled : Nat) :
    List.countP isAddRecords
      (run_config env iapToken kcToken nb0 cfg nbCrawled).trace
      = (if 0 < cfg.extra_records.length then 1 else 0)
    ∧ (0 < cfg.extra_records.length →
        Event.addRecords "Extra records" cfg.extra_records.length
          ∈ (run_config env iapToken kcToken nb0 cfg nbCrawled).trace)
    ∧ firstReached isStop isAddRecords
        (run_config env iapToken kcToken nb0 cfg nbCrawled).trace = true
    ∧ (0 < cfg.extra_records.length →
        firstReached isAddRecords isCommit
          (run_config env iapToken kcToken nb0 cfg nbCrawled).trace = true)
    ∧ (run_config env iapToken kcToken nb0 cfg nbCrawled).nbIndexedAfter
        = nbCrawled
    ∧ (nbCrawled = 0 →
        List.countP isCommit
          (run_config env iapToken kcToken nb0 cfg nbCrawled).trace = 0) := by
  rcases cfg with ⟨iname, itmp, extras⟩
  cases extras <;> cases nbCrawled <;>
    simp [run_config, firstReached, isAddRecords, isStop, isCommit,
      List.countP_cons, List.countP_append]

/-- C4 witness: a run with one extra record and zero crawled records does
perform the "Extra records" add and still never commits. -/
theorem extra_records_added_witness :
    Event.addRecords "Extra records" cfgExtra.extra_records.length
      ∈ (run_config envNone "iap" "kc" 0 cfgExtra 0).trace
    ∧ List.countP isCommit
        (run_config envNone "iap" "kc" 0 cfgExtra 0).trace = 0 :=
  ⟨(extra_records_added envNone "iap" "kc" 0 cfgExtra 0).2.1 (by decide),
   (extra_records_added envNone "iap" "kc" 0 cfgExtra 0).2.2.2.2.2 rfl⟩

/-- C6: on a run with at least one indexed record the hit-count
persistence target is updated exactly once, with exactly the total
indexed count; a zero-record run never updates it. -/
theorem nb_hits_updated (env : Env) (iapToken kcToken : String)
    (nb0 : Nat) (cfg : Config) (nbCrawled : Nat) :
    List.countP isUpdateNbHits
      (run_config env iapToken kcToken nb0 cfg nbCrawled).trace
      = (if 0 < nbCrawled then 1 else 0)
    ∧ (0 < nbCrawled →
        Event.updateNbHitsValue nbCrawled
          ∈ (run_config env iapToken kcToken nb0 cfg nbCrawled).trace)
    ∧ (∀ n, Event.updateNbHitsValue n
          ∈ (run_config env iapToken kcToken nb0 cfg nbCrawled).trace →
        n = nbCrawled) := by
  rcases cfg with ⟨iname, itmp, extras⟩
  cases extras <;> cases nbCrawled <;>
    simp [run_config, isUpdateNbHits, List.countP_cons, List.countP_append]

/-- C6 witness: a concrete two-record run updates the hit count with 2. -/
theorem nb_hits_updated_witness :
    Event.updateNbHitsValue 2
      ∈ (run_config envNone "iap" "kc" 0 cfgPlain 2).trace :=
  (nb_hits_updated envNone "iap" "kc" 0 cfgPlain 2).2.1 (by decide)

/-- C7: the final user-visible output prints the total indexed count
("Nb hits: N") when at least one record was indexed, and on a
zero-record run prints an explicit message naming the configured index
("Crawling issue: nbHits 0 for <index_name>"). -/
theorem final_output (env : Env) (iapToken kcToken : String)
    (nb0 : Nat) (cfg : Config) (nbCrawled : Nat) :
    (0 < nbCrawled →
      Event.printLine ("Nb hits: " ++ toString nbCrawled)
        ∈ (run_config env iapToken kcToken nb0 cfg nbCrawled).trace)
    ∧ (nbCrawled = 0 →
      Event.printLine ("Crawling issue: nbHits 0 for " ++ cfg.index_name)
        ∈ (run_config env iapToken kcToken nb0 cfg nbCrawled).trace) := by
  rcases cfg with ⟨iname, itmp, extras⟩
  cases extras <;> cases nbCrawled <;>
    simp [run_config]

/-- C7 witness: a concrete two-record run prints "Nb hits: 2", and a
concrete zero-record run prints the crawling-issue message naming the
index. -/
theorem final_output_witness :
    Event.printLine ("Nb hits: " ++ toString 2)
      ∈ (run_config envNone "iap" "kc" 0 cfgPlain 2).trace
    ∧ Event.printLine ("Crawling issue: nbHits 0 for " ++ cfgPlain.index_name)
        ∈ (run_config envNone "iap" "kc" 0 cfgPlain 0).trace :=
  ⟨(final_output envNone "iap" "kc" 0 cfgPlain 2).1 (by decide),
   (final_output envNone "iap" "kc" 0 cfgPlain 0).2 rfl⟩

/-- C5: the authentication schemes are tried in a fixed order -
Cloudflare static header pair, then IAP bearer token, then Keycloak
(OIDC client-credentials) bearer token - as a single if/elif chain: the
first configured scheme wins, later schemes are not consulted (the
result does not depend on their variables once an earlier scheme fires),
and when none is configured the headers are exactly the defaults. -/
theorem auth_scheme_order (env : Env) (iapToken kcToken : String) :
    (cfConfigured env = true →
      buildHeaders env iapToken kcToken =
        defaultHeaders ++
          [("CF-Access-Client-Id", env.CF_ACCESS_CLIENT_ID.getD ""),
           ("CF-Access-Client-Secret", env.CF_ACCESS_CLIENT_SECRET.getD "")])
    ∧ (cfConfigured env = false → iapConfigured env = true →
      buildHeaders env iapToken kcToken =
        defaultHeaders ++ [("Authorization", iapToken)])
    ∧ (cfConfigured env = false → iapConfigured env = false →
        kcConfigured env = true →
      buildHeaders env iapToken kcToken =
        defaultHeaders ++ [("Authorization", "bearer " ++ kcToken)])
    ∧ (cfConfigured env = false → iapConfigured env = false →
        kcConfigured env = false →
      buildHeaders env iapToken kcToken = defaultHeaders) := by
  refine ⟨fun h1 => ?_, fun h1 h2 => ?_, fun h1 h2 h3 => ?_,
    fun h1 h2 h3 => ?_⟩
  · simp [buildHeaders, h1, dictUpdate, dictSet, defaultHeaders]
  · simp [buildHeaders, h1, h2, dictUpdate, dictSet, defaultHeaders]
  · simp [buildHeaders, h1, h2, h3, dictUpdate, dictSet, defaultHeaders]
  · simp [buildHeaders, h1, h2, h3]

/-- C5 witness: with both Cloudflare variables set the CF pair is
appended; with nothing set the headers stay the defaults. -/
theorem auth_scheme_order_witness :
    buildHeaders envCFFull "iapTok" "kcTok" =
      defaultHeaders ++
        [("CF-Access-Client-Id", "id"), ("CF-Access-Client-Secret", "sec")]
    ∧ buildHeaders envNone "iapTok" "kcTok" = defaultHeaders := by
  constructor
  · have h := (auth_scheme_order envCFFull "iapTok" "kcTok").1 (by decide)
    simpa [envCFFull] using h
  · exact (auth_scheme_order envNone "iapTok" "kcTok").2.2.2 rfl rfl rfl

/-- C9: a scheme fires only when every one of its environment variables
is truthy (both CF variables, both IAP variables, all four KC
variables); a partially configured scheme contributes nothing - in
particular no CF header ever appears unless both CF variables are set -
and the later schemes of the chain are still consulted. -/
theorem scheme_requires_all_env_vars (env : Env) (iapToken kcToken : String) :
    (cfConfigured env = false →
      dictGet (buildHeaders env iapToken kcToken) "CF-Access-Client-Id" = none
      ∧ dictGet (buildHeaders env iapToken kcToken) "CF-Access-Client-Secret"
          = none)
    ∧ (cfConfigured env = false → iapConfigured env = true →
      buildHeaders env iapToken kcToken =
        defaultHeaders ++ [("Authorization", iapToken)])
    ∧ (cfConfigured env = false → iapConfigured env = false →
        kcConfigured env = true →
      buildHeaders env iapToken kcToken =
        defaultHeaders ++ [("Authorization", "bearer " ++ kcToken)])
    ∧ (cfConfigured env = true ↔
        truthy env.CF_ACCESS_CLIENT_ID = true
        ∧ truthy env.CF_ACCESS_CLIENT_SECRET = true)
    ∧ (iapConfigured env = true ↔
        truthy env.IAP_AUTH_CLIENT_ID = true
        ∧ truthy env.IAP_AUTH_SERVICE_ACCOUNT_JSON = true)
    ∧ (kcConfigured env = true ↔
        truthy env.KC_URL = true ∧ truthy env.KC_REALM = true
        ∧ truthy env.KC_CLIENT_ID = true
        ∧ truthy env.KC_CLIENT_SECRET = true) := by
  refine ⟨fun h1 => ?_, fun h1 h2 => ?_, fun h1 h2 h3 => ?_, ?_, ?_, ?_⟩
  · cases h2 : iapConfigured env <;> cases h3 : kcConfigured env <;>
      simp [buildHeaders, h1, h2, h3, dictUpdate, dictSet, dictGet,
        defaultHeaders]
  · simp [buildHeaders, h1, h2, dictUpdate, dictSet, defaultHeaders]
  · simp [buildHeaders, h1, h2, h3, dictUpdate, dictSet, defaultHeaders]
  · simp [cfConfigured, Bool.and_eq_true]
  · simp [iapConfigured, Bool.and_eq_true]
  · simp [kcConfigured, Bool.and_eq_true, and_assoc]

/-- C9 witness: with the CF scheme only half configured (id set, secret
missing) and all four KC variables set, no CF header appears and the KC
scheme still fires. -/
theorem scheme_requires_all_env_vars_witness :
    dictGet (buildHeaders envHalfCF "iapTok" "kcTok") "CF-Access-Client-Id"
      = none
    ∧ buildHeaders envHalfCF "iapTok" "kcTok" =
        defaultHeaders ++ [("Authorization", "bearer " ++ "kcTok")] :=
  ⟨((scheme_requires_all_env_vars envHalfCF "iapTok" "kcTok").1 rfl).1,
   (scheme_requires_all_env_vars envHalfCF "iapTok" "kcTok").2.2.1
     rfl rfl (by decide)⟩

/-- C10: whatever the auth-scheme outcome, the default headers Accept and
Accept-Language are present in `DEFAULT_REQUEST_HEADERS` with their
original values: scheme selection only adds its own keys. -/
theorem default_headers_preserved (env : Env) (iapToken kcToken : String) :
    dictGet (buildHeaders env iapToken kcToken) "Accept"
      = some "text/html,application/xhtml+xml,application/xml;q=0.9,*/*;q=0.8"
    ∧ dictGet (buildHeaders env iapToken kcToken) "Accept-Language"
        = some "en" := by
  cases h1 : cfConfigured env <;> cases h2 : iapConfigured env <;>
    cases h3 : kcConfigured env <;>
      simp [buildHeaders, h1, h2, h3, dictUpdate, dictSet, dictGet,
        defaultHeaders]
